import Mathlib

/-!
Verification of the curl MCP server (`src/index.js`) against its
natural-language specification.

The repository ships two concatenated revisions of the same file: the
v1.2.0 handler (simplified result format) and the v1.1.0 handler
(result object with truncation metadata).  Both `handleCurlRequest`
pipelines are embedded below.  JavaScript strings are modelled as Lean
`String`s (`.length` counts characters, matching the code's use of
UTF-16 `length`; the claims' "bytes" coincide with this for ASCII
payloads).  JavaScript numbers that hold integers are modelled as `Int`
with exact decimal serialization.  Platform functions that the code
calls (`new URL`, `child_process.exec`, `JSON.parse`, `/bin/sh`
tokenization of the command string) are modelled explicitly and are
marked as such in their doc comments.
-/

/-- Argument record of the `curl_request` tool, with the default values
applied by the destructuring in `handleCurlRequest` (src/index.js:139-149).
`data` is `none` when the argument is absent. -/
structure RequestArgs where
  url : String
  method : String := "GET"
  headers : List (String × String) := []
  data : Option String := none
  timeout : Nat := 30
  follow_redirects : Bool := true
  include_headers : Bool := false
  user_agent : String := "curl-mcp-server/1.1.0"
  max_response_size : Nat := 800000
deriving DecidableEq

/-- The three body-bearing verbs of the data-attachment guard
(src/index.js:184). -/
def bodyVerbs : List String := ["POST", "PUT", "PATCH"]

/-- Embeds `data.replace(/'/g, "\\'")` (src/index.js:185): every single
quote is replaced by a backslash followed by a single quote. -/
def escapeSingleQuotes (d : String) : String :=
  String.mk (d.data.flatMap (fun c => if c = '\'' then ['\\', '\''] else [c]))

/-- Embeds the data-attachment step (src/index.js:184-186): the `--data`
argument is pushed only when `data` is truthy (present and non-empty)
and the method is one of the three body-bearing verbs. -/
def dataClause (a : RequestArgs) : List String :=
  match a.data with
  | none => []
  | some d =>
    if (d != "") && bodyVerbs.contains a.method then
      ["--data '" ++ escapeSingleQuotes d ++ "'"]
    else []

/-- Embeds the command assembly (src/index.js:158-191): the list of
strings pushed onto `curlCmd`, in order. -/
def buildCurlCmd (a : RequestArgs) : List String :=
  ["curl",
   "--max-time " ++ toString a.timeout,
   "--user-agent \"" ++ a.user_agent ++ "\"",
   "--silent",
   "--show-error"]
  ++ (if a.follow_redirects then ["--location"] else [])
  ++ (if a.include_headers then ["--include"] else [])
  ++ ["--request " ++ a.method]
  ++ a.headers.map (fun kv => "--header \"" ++ kv.1 ++ ": " ++ kv.2 ++ "\"")
  ++ dataClause a
  ++ ["\"" ++ a.url ++ "\""]

/-- Embeds `curlCmd.join(" ")` (src/index.js:191): the single
interpolated command string handed to the shell. -/
def curlCommandOf (a : RequestArgs) : String :=
  String.intercalate " " (buildCurlCmd a)

/-- Whether a character may occur in a URL scheme after the first
character (ASCII alphanumerics, plus, minus, dot). -/
def schemeChar (c : Char) : Bool :=
  c.isAlphanum || c = '+' || c = '-' || c = '.'

/-- Modelled from the platform: the WHATWG URL constructor invoked by
`new URL(url)` (src/index.js:152-156); only the scheme requirement is
modelled (an absolute URL must start with `alpha (alphanum | + | - | .)* :`).
The result pairs the scheme with the remainder.  A string without a
colon, such as "not-a-url", is rejected by any faithful model. -/
def parseURLModel (s : String) : Option (String × String) :=
  let pre := s.data.takeWhile (fun c => c ≠ ':')
  if pre.length = s.data.length then none
  else
    match pre with
    | [] => none
    | c :: cs =>
      if c.isAlpha && cs.all schemeChar then
        some (String.mk pre, String.mk (s.data.drop (pre.length + 1)))
      else none

/-- Parser state of the POSIX shell field splitter. -/
inductive ShMode where
  | norm
  | single
  | double
  | bsNorm
  | bsDouble
deriving DecidableEq

/-- Modelled from the platform: POSIX `/bin/sh` word splitting of the
command string passed by `child_process.exec` (quote removal only; no
expansions occur in the commands considered).  `cur` is the current
token (reversed), `started` whether a token is open.  Returns `none` on
an unterminated quote, i.e. a shell syntax error. -/
def shSplit : List Char → ShMode → List Char → Bool → Option (List String)
  | [], ShMode.norm, cur, started =>
    some (if started then [String.mk cur.reverse] else [])
  | [], _, _, _ => none
  | c :: cs, ShMode.norm, cur, started =>
    if c = ' ' then
      if started then (shSplit cs ShMode.norm [] false).map
        (fun ts => String.mk cur.reverse :: ts)
      else shSplit cs ShMode.norm [] false
    else if c = '\'' then shSplit cs ShMode.single cur true
    else if c = '"' then shSplit cs ShMode.double cur true
    else if c = '\\' then shSplit cs ShMode.bsNorm cur started
    else shSplit cs ShMode.norm (c :: cur) true
  | c :: cs, ShMode.single, cur, started =>
    if c = '\'' then shSplit cs ShMode.norm cur started
    else shSplit cs ShMode.single (c :: cur) started
  | c :: cs, ShMode.double, cur, started =>
    if c = '"' then shSplit cs ShMode.norm cur started
    else if c = '\\' then shSplit cs ShMode.bsDouble cur started
    else shSplit cs ShMode.double (c :: cur) started
  | c :: cs, ShMode.bsNorm, cur, _ => shSplit cs ShMode.norm (c :: cur) true
  | c :: cs, ShMode.bsDouble, cur, started =>
    if c = '"' || c = '\\' || c = '$' || c = Char.ofNat 96 then
      shSplit cs ShMode.double (c :: cur) started
    else shSplit cs ShMode.double (c :: '\\' :: cur) started

/-- Tokenize a command string the way the shell does. -/
def shellSplit (s : String) : Option (List String) :=
  shSplit s.data ShMode.norm [] false

/-- JSON values as produced by `JSON.parse` and consumed by
`JSON.stringify` (src/index.js:208-240).  Numbers are modelled as exact
integers (the code never exercises fractional or overflowing values in
the claims under study); object entries keep their textual order. -/
inductive Json where
  | null
  | bool (b : Bool)
  | num (m : Int)
  | str (s : String)
  | arr (l : List Json)
  | obj (l : List (String × Json))

/-- Decimal digits of a natural number, fuelled for kernel reduction
(fuel at least the digit count). -/
def natDigitsGo : Nat → Nat → List Char
  | 0, _ => []
  | f + 1, n =>
    if n < 10 then [Char.ofNat (48 + n)]
    else natDigitsGo f (n / 10) ++ [Char.ofNat (48 + n % 10)]

/-- Decimal representation of an integer, as produced by JavaScript for
integral numbers. -/
def intRepr (m : Int) : String :=
  if m < 0 then String.mk ('-' :: natDigitsGo (m.natAbs + 1) m.natAbs)
  else String.mk (natDigitsGo (m.natAbs + 1) m.natAbs)

/-- Lower-case hexadecimal digit. -/
def hexDigitChar (n : Nat) : Char :=
  if n < 10 then Char.ofNat (48 + n) else Char.ofNat (87 + n)

/-- Escape of one character inside a JSON string literal, following
`JSON.stringify`. -/
def escapeJsonChar (c : Char) : List Char :=
  if c = '"' then ['\\', '"']
  else if c = '\\' then ['\\', '\\']
  else if c = Char.ofNat 8 then ['\\', 'b']
  else if c = Char.ofNat 9 then ['\\', 't']
  else if c = Char.ofNat 10 then ['\\', 'n']
  else if c = Char.ofNat 12 then ['\\', 'f']
  else if c = Char.ofNat 13 then ['\\', 'r']
  else if c.toNat < 32 then
    ['\\', 'u', '0', '0', hexDigitChar (c.toNat / 16), hexDigitChar (c.toNat % 16)]
  else [c]

/-- JSON string literal quoting, following `JSON.stringify`. -/
def quoteJsonString (s : String) : String :=
  "\"" ++ String.mk (s.data.flatMap escapeJsonChar) ++ "\""

/-- Indentation produced by `JSON.stringify(v, null, 2)` at nesting
depth `d`: `2*d` spaces. -/
def indentStr (d : Nat) : String :=
  String.mk (List.replicate (2 * d) ' ')

mutual

/-- Modelled from the platform: `JSON.stringify(v, null, 2)`
(src/index.js:223 and 237) at nesting depth `d`. -/
def jsonStringifyAux : Json → Nat → String
  | Json.null, _ => "null"
  | Json.bool b, _ => if b then "true" else "false"
  | Json.num m, _ => intRepr m
  | Json.str s, _ => quoteJsonString s
  | Json.arr [], _ => "[]"
  | Json.arr (x :: xs), d =>
    "[\n" ++ joinArrItems (x :: xs) (d + 1) ++ "\n" ++ indentStr d ++ "]"
  | Json.obj [], _ => "\x7b\x7d"
  | Json.obj (p :: ps), d =>
    "\x7b\n" ++ joinObjItems (p :: ps) (d + 1) ++ "\n" ++ indentStr d ++ "\x7d"

/-- Array items of `JSON.stringify(v, null, 2)`, one per line at depth
`d`, separated by ",\n". -/
def joinArrItems : List Json → Nat → String
  | [], _ => ""
  | [x], d => indentStr d ++ jsonStringifyAux x d
  | x :: y :: ys, d =>
    indentStr d ++ jsonStringifyAux x d ++ ",\n" ++ joinArrItems (y :: ys) d

/-- Object entries of `JSON.stringify(v, null, 2)`, one per line at
depth `d`, separated by ",\n". -/
def joinObjItems : List (String × Json) → Nat → String
  | [], _ => ""
  | [p], d => indentStr d ++ quoteJsonString p.1 ++ ": " ++ jsonStringifyAux p.2 d
  | p :: q :: qs, d =>
    indentStr d ++ quoteJsonString p.1 ++ ": " ++ jsonStringifyAux p.2 d
      ++ ",\n" ++ joinObjItems (q :: qs) d

end

/-- `JSON.stringify(v, null, 2)` at top level. -/
def jsonStringify (v : Json) : String := jsonStringifyAux v 0

/-- Embeds the structural size check of the v1.2.0 handler
(src/index.js:221-231): when the formatted serialization exceeds the
1000000-character ceiling, an array keeps its first 100 elements and an
object its first 100 entries.  The Boolean records which branch ran
(the code keeps no flag; this is the spec's `truncatedStructurally`
bookkeeping). -/
def structuralStage (v : Json) : Json × Bool :=
  if (jsonStringify v).length > 1000000 then
    match v with
    | Json.arr l => (Json.arr (l.take 100), true)
    | Json.obj ps => (Json.obj (ps.take 100), true)
    | x => (x, false)
  else (v, false)

/-- Final text returned on the JSON path of the v1.2.0 handler
(src/index.js:233-240): the re-serialization of the (possibly reduced)
value. -/
def jsonResponseText (v : Json) : String :=
  jsonStringify (structuralStage v).1

/-- Embeds the byte-truncation stage (src/index.js:198-206): when the
captured output is longer than `max_response_size` it is cut to that
many units and the `truncated` flag is set. -/
def jsByteTruncate (s : String) (m : Nat) : String × Bool :=
  if m < s.length then (String.mk (s.data.take m), true) else (s, false)

/-- Skip JSON whitespace. -/
def skipWs : List Char → List Char
  | [] => []
  | c :: cs =>
    if c = ' ' || c = Char.ofNat 10 || c = Char.ofNat 9 || c = Char.ofNat 13 then
      skipWs cs
    else c :: cs

/-- Unescaped character corresponding to a JSON escape letter, when
legal (the `\u` form is not modelled; no claim exercises it). -/
def escCharInv (c : Char) : Option Char :=
  if c = '"' then some '"'
  else if c = '\\' then some '\\'
  else if c = '/' then some '/'
  else if c = 'b' then some (Char.ofNat 8)
  else if c = 'f' then some (Char.ofNat 12)
  else if c = 'n' then some (Char.ofNat 10)
  else if c = 'r' then some (Char.ofNat 13)
  else if c = 't' then some (Char.ofNat 9)
  else none

/-- Body of a JSON string literal after the opening quote: `esc` is
true right after a backslash, `acc` holds the parsed characters
reversed. -/
def parseStrBody : List Char → Bool → List Char → Option (String × List Char)
  | [], _, _ => none
  | c :: cs, true, acc =>
    match escCharInv c with
    | some e => parseStrBody cs false (e :: acc)
    | none => none
  | c :: cs, false, acc =>
    if c = '"' then some (String.mk acc.reverse, cs)
    else if c = '\\' then parseStrBody cs true acc
    else if c.toNat < 32 then none
    else parseStrBody cs false (c :: acc)

/-- Value of a list of decimal digits. -/
def digitsToNat (ds : List Char) : Nat :=
  ds.foldl (fun a c => a * 10 + (c.toNat - 48)) 0

/-- JSON number parse (integral subset; fractions and exponents are not
modelled, no claim exercises them). -/
def parseNumberTok (cs : List Char) : Option (Json × List Char) :=
  let neg := match cs with
    | '-' :: _ => true
    | _ => false
  let cs' := if neg then cs.drop 1 else cs
  let ds := cs'.takeWhile (fun c => c.isDigit)
  let rest := cs'.dropWhile (fun c => c.isDigit)
  if ds.isEmpty then none
  else some (Json.num (if neg then -(digitsToNat ds : Int) else (digitsToNat ds : Int)), rest)

/-- Expect a literal character sequence. -/
def expectLit (lit : List Char) (cs : List Char) : Option (List Char) :=
  if lit.isPrefixOf cs then some (cs.drop lit.length) else none

mutual

/-- Modelled from the platform: `JSON.parse` (src/index.js:212), as a
fuelled recursive-descent parser returning the value and the rest of
the input. -/
def parseJsonVal : Nat → List Char → Option (Json × List Char)
  | 0, _ => none
  | f + 1, cs =>
    match skipWs cs with
    | [] => none
    | c :: rest =>
      if c = 'n' then (expectLit ['u', 'l', 'l'] rest).map (fun r => (Json.null, r))
      else if c = 't' then (expectLit ['r', 'u', 'e'] rest).map (fun r => (Json.bool true, r))
      else if c = 'f' then (expectLit ['a', 'l', 's', 'e'] rest).map (fun r => (Json.bool false, r))
      else if c = '"' then (parseStrBody rest false []).map (fun p => (Json.str p.1, p.2))
      else if c = '[' then
        match skipWs rest with
        | ']' :: r => some (Json.arr [], r)
        | cs' => parseArrRest f cs' []
      else if c = Char.ofNat 123 then
        match skipWs rest with
        | d :: r => if d = Char.ofNat 125 then some (Json.obj [], r) else parseObjRest f (d :: r) []
        | [] => none
      else parseNumberTok (c :: rest)

/-- Remaining elements of a JSON array (after `[`, at least one value
expected); `acc` reversed. -/
def parseArrRest : Nat → List Char → List Json → Option (Json × List Char)
  | 0, _, _ => none
  | f + 1, cs, acc =>
    match parseJsonVal f cs with
    | none => none
    | some (v, r) =>
      match skipWs r with
      | ',' :: r' => parseArrRest f r' (v :: acc)
      | ']' :: r' => some (Json.arr (v :: acc).reverse, r')
      | _ => none

/-- Remaining entries of a JSON object (after `{`, at least one entry
expected); `acc` reversed. -/
def parseObjRest : Nat → List Char → List (String × Json) → Option (Json × List Char)
  | 0, _, _ => none
  | f + 1, cs, acc =>
    match skipWs cs with
    | '"' :: r =>
      match parseStrBody r false [] with
      | none => none
      | some (k, r') =>
        match skipWs r' with
        | ':' :: r'' =>
          match parseJsonVal f r'' with
          | none => none
          | some (v, r''') =>
            match skipWs r''' with
            | ',' :: r4 => parseObjRest f r4 ((k, v) :: acc)
            | d :: r4 =>
              if d = Char.ofNat 125 then some (Json.obj ((k, v) :: acc).reverse, r4)
              else none
            | [] => none
        | _ => none
    | _ => none

end

/-- `JSON.parse` on a whole string: the parse must consume everything
but trailing whitespace. -/
def jsonParse (s : String) : Option Json :=
  match parseJsonVal (s.length + 1) s.data with
  | some (v, r) => if skipWs r = [] then some v else none
  | none => none

/-- The `maxBuffer` option passed to `execAsync` (src/index.js:193-196):
a fixed 10 MiB capture ceiling. -/
def maxBufferBytes : Nat := 10 * 1024 * 1024

/-- Output of the child process before the capture boundary. -/
structure ProcOutput where
  stdout : String
  stderr : String
  exitOk : Bool
deriving DecidableEq

/-- Modelled from the platform: promisified `child_process.exec` with a
`maxBuffer` option.  A nonzero exit rejects with the failure message; a
stdout longer than `maxBuffer` rejects as well (Node kills the child),
so a successful capture never exceeds the ceiling. -/
def execCapture (command : String) (p : ProcOutput) (maxBuffer : Nat) :
    Except (String × Option String) (String × String) :=
  if p.exitOk = false then Except.error ("Command failed: " ++ command, some p.stderr)
  else if maxBuffer < p.stdout.length then
    Except.error ("stdout maxBuffer length exceeded", some p.stderr)
  else Except.ok (p.stdout, p.stderr)

/-- Result of a tool invocation: one text content block, either plain
or flagged as an error (src/index.js:233-267). -/
inductive ToolResult where
  | ok (text : String)
  | err (text : String)
deriving DecidableEq

/-- Error payload of the v1.2.0 catch block (src/index.js:253-267):
`{error, stderr}` serialized with 2-space indent; an absent or empty
stderr becomes `null`. -/
def jsonErrorText (msg : String) (stderr : Option String) : String :=
  jsonStringify (Json.obj
    [("error", Json.str msg),
     ("stderr", match stderr with
       | some e => if e = "" then Json.null else Json.str e
       | none => Json.null)])

/-- Embeds the v1.2.0 `handleCurlRequest` (src/index.js:137-268):
validate the URL, assemble the command, run it through the capture
boundary, byte-truncate, attempt a JSON parse, and return either the
structurally bounded JSON text or the plain truncated text.  The child
process is a parameter; the URL-invalid path returns before it is ever
consulted. -/
def handleCurlRequestV12 (a : RequestArgs) (child : ProcOutput) : ToolResult :=
  if (parseURLModel a.url).isNone then
    ToolResult.err (jsonErrorText ("Invalid URL: " ++ a.url) none)
  else
    let command := curlCommandOf a
    match execCapture command child maxBufferBytes with
    | Except.error e => ToolResult.err (jsonErrorText e.1 e.2)
    | Except.ok out =>
      let rt := jsByteTruncate out.1 a.max_response_size
      match jsonParse rt.1 with
      | some v => ToolResult.ok (jsonResponseText v)
      | none => ToolResult.ok rt.1

/-- Result record built by the v1.1.0 handler (src/index.js:550-563)
before envelope encoding; `none` marks a field that is not attached. -/
structure V11Result where
  success : Bool
  command : String
  response : String
  error : Option String
  truncated : Option Bool := none
  original_size : Option Nat := none
  truncated_size : Option Nat := none
  truncation_note : Option String := none
  warning : Option String := none
deriving DecidableEq

/-- Embeds src/index.js:550-563: the base result, with the five
truncation-metadata fields attached exactly when the byte stage
truncated. -/
def buildV11Result (command response : String) (originalSize m : Nat)
    (truncated : Bool) (stderr : String) : V11Result :=
  let base : V11Result :=
    { success := true, command := command, response := response,
      error := if stderr = "" then none else some stderr }
  if truncated then
    { base with
      truncated := some true,
      original_size := some originalSize,
      truncated_size := some m,
      truncation_note := some ("Response truncated from " ++ toString originalSize
        ++ " bytes to " ++ toString m ++ " bytes"),
      warning := some "Large response was truncated. Use max_response_size parameter to control truncation." }
  else base

/-- The v1.1.0 truncation-plus-result pipeline (src/index.js:540-563)
from the captured stdout. -/
def v11ResultOf (command stdout stderr : String) (m : Nat) : V11Result :=
  let rt := jsByteTruncate stdout m
  buildV11Result command rt.1 stdout.length m rt.2 stderr

/-- Whether `pat` occurs as a contiguous run inside `s`. -/
def containsSub (pat s : List Char) : Bool :=
  match s with
  | [] => pat.isEmpty
  | _ :: cs => pat.isPrefixOf s || containsSub pat cs

/-- A captured JSON value whose 2-space-indented serialization re-expands
far past the structural ceiling although its source text is under the
default byte limit: one nested array of 350000 ones (raw text 700003
characters, formatted text 2450010 characters). -/
def bigNested : Json := Json.arr [Json.arr (List.replicate 350000 (Json.num 1))]

/-- A parsed sequence of 500 integers whose formatted size (1052502)
exceeds the structural ceiling. -/
def v500 : Json := Json.arr (List.replicate 500 (Json.num ((10 ^ 2100 : Nat) : Int)))

/-- Invocation with a single quote inside the POST body. -/
def argsC1 : RequestArgs :=
  { url := "https://example.com", method := "POST", data := some "it's" }

/-- Invocation whose max_response_size equals the 10 MiB capture cap. -/
def argsC2 : RequestArgs := { url := "https://example.com", max_response_size := 10485760 }

/-- Invocation with a small byte limit, to force byte truncation. -/
def argsC6 : RequestArgs := { url := "https://example.com", max_response_size := 5 }

/-- Invocation with a method outside the enumerated 7-verb set. -/
def argsC7 : RequestArgs := { url := "https://example.com", method := "TRACE" }

/-- Invocation with an unparsable URL. -/
def argsC8 : RequestArgs := { url := "not-a-url" }

/-- Invocation with a data payload and a non-body-bearing method. -/
def argsC9 : RequestArgs :=
  { url := "https://example.com", method := "GET", data := some "payload" }

/-- Invocation with a body-bearing method and an empty data payload. -/
def argsC10 : RequestArgs :=
  { url := "https://example.com", method := "POST", data := some "" }

theorem strLen_mk (l : List Char) : (String.mk l).length = l.length := rfl

theorem strData_append (s t : String) : (s ++ t).data = s.data ++ t.data := rfl

theorem indentStr_len (d : Nat) : (indentStr d).length = 2 * d := by
  simp [indentStr, strLen_mk]

theorem natDigitsGo_len_pow10 : ∀ k f, k < f → (natDigitsGo f (10 ^ k)).length = k + 1 := by
  intro k
  induction k with
  | zero =>
    intro f hf
    match f, hf with
    | f' + 1, _ => simp [natDigitsGo]
  | succ k ih =>
    intro f hf
    match f, hf with
    | f' + 1, hf =>
      have h10 : ¬ (10 ^ (k + 1) < 10) := by
        have : 10 ^ 1 ≤ 10 ^ (k + 1) := Nat.pow_le_pow_right (by norm_num) (by omega)
        simpa using this
      have hdiv : 10 ^ (k + 1) / 10 = 10 ^ k := by
        rw [Nat.pow_succ]
        exact Nat.mul_div_cancel _ (by norm_num)
      rw [natDigitsGo, if_neg h10, hdiv, List.length_append, ih f' (by omega)]
      simp

theorem intRepr_len_pow10 (k : Nat) : (intRepr ((10 ^ k : Nat) : Int)).length = k + 1 := by
  rw [intRepr, if_neg (Int.not_lt.mpr (Int.natCast_nonneg _)), Int.natAbs_ofNat, strLen_mk]
  exact natDigitsGo_len_pow10 k _ (Nat.lt_succ_of_lt (Nat.lt_pow_self (by norm_num) k))

theorem stringify_num_one (d : Nat) : (jsonStringifyAux (Json.num 1) d).length = 1 := by
  simp [jsonStringifyAux]
  rfl

theorem stringify_num_len (m : Int) (d : Nat) :
    (jsonStringifyAux (Json.num m) d).length = (intRepr m).length := by
  simp [jsonStringifyAux]

theorem joinArrItems_replicate_len (x : Json) (d : Nat) :
    ∀ n, (joinArrItems (List.replicate (n + 1) x) d).length
      = (n + 1) * (2 * d + (jsonStringifyAux x d).length) + 2 * n := by
  intro n
  induction n with
  | zero =>
    simp [joinArrItems, String.length_append, indentStr_len]
  | succ n ih =>
    rw [List.replicate_succ, List.replicate_succ]
    rw [joinArrItems]
    rw [← List.replicate_succ]
    have hc : (",\n" : String).length = 2 := rfl
    simp only [String.length_append, indentStr_len, ih, hc]
    ring

theorem stringify_arr_replicate_len (x : Json) (d n : Nat) :
    (jsonStringifyAux (Json.arr (List.replicate (n + 1) x)) d).length
      = (n + 1) * (2 * (d + 1) + (jsonStringifyAux x (d + 1)).length) + 2 * n + 2 * d + 4 := by
  rw [List.replicate_succ, jsonStringifyAux, ← List.replicate_succ]
  simp only [String.length_append, indentStr_len, joinArrItems_replicate_len]
  have h1 : ("[\n" : String).length = 2 := rfl
  have h2 : ("\n" : String).length = 1 := rfl
  have h3 : ("]" : String).length = 1 := rfl
  simp only [h1, h2, h3]
  ring

theorem structuralStage_arr_eq (l : List Json)
    (h : (jsonStringify (Json.arr l)).length > 1000000) :
    structuralStage (Json.arr l) = (Json.arr (l.take 100), true) := by
  simp only [structuralStage]
  rw [if_pos h]

theorem structuralStage_obj_eq (ps : List (String × Json))
    (h : (jsonStringify (Json.obj ps)).length > 1000000) :
    structuralStage (Json.obj ps) = (Json.obj (ps.take 100), true) := by
  simp only [structuralStage]
  rw [if_pos h]

theorem structuralStage_small (v : Json) (h : ¬ ((jsonStringify v).length > 1000000)) :
    structuralStage v = (v, false) := by
  simp only [structuralStage]
  rw [if_neg h]

theorem bigNested_len : (jsonStringify bigNested).length = 2450010 := by
  have hin := stringify_arr_replicate_len (Json.num 1) 1 349999
  rw [show (349999 : Nat) + 1 = 350000 from rfl, show (1 : Nat) + 1 = 2 from rfl,
      stringify_num_one] at hin
  rw [show (350000 : Nat) * (2 * 2 + 1) + 2 * 349999 + 2 * 1 + 4 = 2450004 from by norm_num] at hin
  have hout := stringify_arr_replicate_len (Json.arr (List.replicate 350000 (Json.num 1))) 0 0
  rw [show (0 : Nat) + 1 = 1 from rfl] at hout
  rw [show List.replicate 1 (Json.arr (List.replicate 350000 (Json.num 1)))
      = [Json.arr (List.replicate 350000 (Json.num 1))] from rfl] at hout
  rw [hin] at hout
  rw [show (1 : Nat) * (2 * 1 + 2450004) + 2 * 0 + 2 * 0 + 4 = 2450010 from by norm_num] at hout
  exact hout

theorem structuralStage_bigNested : structuralStage bigNested = (bigNested, true) := by
  have h : (jsonStringify (Json.arr [Json.arr (List.replicate 350000 (Json.num 1))])).length
      > 1000000 := by
    have hb := bigNested_len
    rw [show bigNested = Json.arr [Json.arr (List.replicate 350000 (Json.num 1))] from rfl] at hb
    rw [hb]
    norm_num
  have hs := structuralStage_arr_eq [Json.arr (List.replicate 350000 (Json.num 1))] h
  rw [List.take_of_length_le (by rw [List.length_singleton]; norm_num)] at hs
  exact hs

theorem v500_len : (jsonStringify v500).length = 1052502 := by
  have hnum : (jsonStringifyAux (Json.num ((10 ^ 2100 : Nat) : Int)) 1).length = 2101 := by
    rw [stringify_num_len, intRepr_len_pow10 2100]
  have h0 := stringify_arr_replicate_len (Json.num ((10 ^ 2100 : Nat) : Int)) 0 499
  rw [show (499 : Nat) + 1 = 500 from rfl, show (0 : Nat) + 1 = 1 from rfl, hnum] at h0
  rw [show (500 : Nat) * (2 * 1 + 2101) + 2 * 499 + 2 * 0 + 4 = 1052502 from by norm_num] at h0
  exact h0

theorem joinArrItems_len_le (d B : Nat) :
    ∀ l : List Json, (∀ x ∈ l, (jsonStringifyAux x d).length ≤ B) →
      (joinArrItems l d).length ≤ l.length * (2 * d + B + 2) := by
  intro l
  induction l with
  | nil => intro _; simp [joinArrItems]
  | cons x xs ih =>
    intro hB
    cases xs with
    | nil =>
      have hx := hB x (by simp)
      simp only [joinArrItems, String.length_append, indentStr_len]
      simp only [List.length_cons, List.length_nil]
      omega
    | cons y ys =>
      have hx := hB x (by simp)
      have ih2 := ih (fun z hz => hB z (by simp [hz]))
      simp only [joinArrItems, String.length_append, indentStr_len]
      have hc : (",\n" : String).length = 2 := rfl
      rw [hc]
      simp only [List.length_cons] at ih2 ⊢
      have expand : (ys.length + 1 + 1) * (2 * d + B + 2)
          = (ys.length + 1) * (2 * d + B + 2) + (2 * d + B + 2) := by ring
      rw [expand]
      omega

theorem prefix6_append (s t : String) (h : 6 ≤ s.data.length) :
    (s ++ t).data.take 6 = s.data.take 6 := by
  rw [strData_append]
  exact List.take_append_of_le_length h

theorem no_data_arg_of_nil (a : RequestArgs) (hnil : dataClause a = []) :
    ∀ x ∈ buildCurlCmd a, x.data.take 6 ≠ "--data".data := by
  intro x hx
  unfold buildCurlCmd at hx
  rw [hnil] at hx
  simp only [List.append_assoc, List.mem_append, List.mem_cons, List.mem_singleton,
    List.mem_map, List.not_mem_nil, or_false, false_or, List.append_nil] at hx
  have hcurl : ("curl" : String).data.take 6 ≠ "--data".data := by decide
  have hmax : ∀ t : String, ("--max-time " ++ t).data.take 6 ≠ "--data".data := by
    intro t
    rw [prefix6_append _ _ (by decide)]
    decide
  have hua : ∀ t u : String, ("--user-agent \"" ++ t ++ u).data.take 6 ≠ "--data".data := by
    intro t u
    rw [String.append_assoc, prefix6_append _ _ (by decide)]
    decide
  have hreq : ∀ t : String, ("--request " ++ t).data.take 6 ≠ "--data".data := by
    intro t
    rw [prefix6_append _ _ (by decide)]
    decide
  have hhdr : ∀ k c v q : String,
      ("--header \"" ++ k ++ c ++ v ++ q).data.take 6 ≠ "--data".data := by
    intro k c v q
    rw [String.append_assoc, String.append_assoc, String.append_assoc,
      prefix6_append _ _ (by decide)]
    decide
  have hurl : ∀ t u : String, ("\"" ++ t ++ u).data.take 6 ≠ "--data".data := by
    intro t u
    rw [String.append_assoc]
    intro hcontra
    rw [show ("\"" ++ (t ++ u)).data = '"' :: (t ++ u).data from rfl] at hcontra
    rw [List.take_succ_cons] at hcontra
    rw [show ("--data" : String).data = '-' :: "-data".data from rfl] at hcontra
    simp at hcontra
  rcases hx with (h | h | h | h | h) | h | h | h | (⟨kv, hkv, h⟩ | h)
  · subst h; exact hcurl
  · subst h; exact hmax _
  · subst h; exact hua _ _
  · subst h; decide
  · subst h; decide
  · split at h
    · simp only [List.mem_singleton] at h
      subst h; decide
    · exact absurd h (List.not_mem_nil x)
  · split at h
    · simp only [List.mem_singleton] at h
      subst h; decide
    · exact absurd h (List.not_mem_nil x)
  · subst h; exact hreq _
  · rw [← h]
    exact hhdr _ _ _ _
  · subst h; exact hurl _ _

theorem dataClause_nil_of_method (a : RequestArgs) (d : String) (hd : a.data = some d)
    (hm : a.method ∉ bodyVerbs) : dataClause a = [] := by
  have hc : bodyVerbs.contains a.method = false := by simpa using hm
  simp only [dataClause, hd, hc, Bool.and_false]
  rfl

theorem dataClause_nil_of_empty (a : RequestArgs) (hd : a.data = some "") :
    dataClause a = [] := by
  simp [dataClause, hd]

set_option maxRecDepth 10000 in
/-- C1: the claim asserts that every user-controlled value embedded in
the curl command is escaped so that shell interpretation yields exactly
the intended argument tokens, and in particular that a POST body
containing a single quote is delivered literally.  Evaluating the code
at that very input refutes it: for the body "it's" the builder emits
the argument text `--data 'it\'s'`; inside POSIX single quotes a
backslash is literal, so the quote after it closes the token and the
final quote is left unterminated — the shell tokenizer fails (a syntax
error) instead of delivering the body, and in general a quote in the
body escapes the single-quoted context.  The spec's required
close-quote/escaped-quote/reopen-quote sequence would avoid this, so
the code, which attempts escaping by naive character replacement, is in
error. -/
theorem c1_data_quote_breaks_shell : shellSplit (curlCommandOf argsC1) = none := by decide

/-- C2 counterexample: the claim says the 10 MiB capture cap is
strictly larger than every supported max_response_size.  But the
handler validates nothing: the invocation with max_response_size =
10485760 (the cap itself) is processed normally, and the cap is not
strictly larger than it. -/
theorem c2_cap_not_above_accepted_limit :
    handleCurlRequestV12 argsC2 ⟨"hi", "", true⟩ = ToolResult.ok "hi" ∧
    ¬ (10485760 < maxBufferBytes) := by
  constructor
  · decide
  · decide

/-- C2 amended: the captured stdout that reaches the truncation stage
never exceeds the fixed 10 MiB `maxBuffer` cap (Node rejects larger
outputs at the capture boundary), and the cap is strictly larger than
the default max_response_size of 800000 — but not than every value the
handler accepts, since max_response_size is never validated. -/
theorem c2_capture_bounded (cmd : String) (p : ProcOutput) (out : String × String)
    (h : execCapture cmd p maxBufferBytes = Except.ok out) :
    out.1.length ≤ maxBufferBytes ∧ 800000 < maxBufferBytes := by
  unfold execCapture at h
  split at h
  · exact absurd h (by simp)
  · split at h
    · exact absurd h (by simp)
    · rename_i hbuf
      have hout : out = (p.stdout, p.stderr) := by
        injection h with h
        exact h.symm
      rw [hout]
      constructor
      · show p.stdout.length ≤ maxBufferBytes
        omega
      · rw [maxBufferBytes]
        norm_num

/-- Witness for C2 amended at a concrete capture. -/
theorem c2_capture_bounded_witness :
    execCapture "curl" ⟨"hi", "", true⟩ maxBufferBytes = Except.ok ("hi", "") ∧
    (("hi", "") : String × String).1.length ≤ maxBufferBytes ∧ 800000 < maxBufferBytes := by
  have h : execCapture "curl" ⟨"hi", "", true⟩ maxBufferBytes = Except.ok ("hi", "") := rfl
  exact ⟨h, c2_capture_bounded "curl" ⟨"hi", "", true⟩ ("hi", "") h⟩

/-- C3: for every captured output and positive max_response_size, the
byte-truncation stage keeps exactly the first max_response_size units
and sets the flag when the output is longer, returns the output
unchanged with the flag clear otherwise, and its result never exceeds
max_response_size. -/
theorem c3_byte_truncation (s : String) (m : Nat) (_hm : 0 < m) :
    (m < s.length → jsByteTruncate s m = (String.mk (s.data.take m), true)) ∧
    (s.length ≤ m → jsByteTruncate s m = (s, false)) ∧
    (jsByteTruncate s m).1.length ≤ m := by
  refine ⟨?_, ?_, ?_⟩
  · intro h
    rw [jsByteTruncate, if_pos h]
  · intro h
    rw [jsByteTruncate, if_neg (by omega)]
  · rw [jsByteTruncate]
    split
    · show (String.mk (s.data.take m)).length ≤ m
      rw [strLen_mk, List.length_take]
      omega
    · show s.length ≤ m
      omega

/-- Witness for C3 at a concrete truncating input. -/
theorem c3_byte_truncation_witness :
    0 < 3 ∧
    ((3 < ("abcdef" : String).length →
        jsByteTruncate "abcdef" 3 = (String.mk (("abcdef" : String).data.take 3), true)) ∧
      (("abcdef" : String).length ≤ 3 → jsByteTruncate "abcdef" 3 = ("abcdef", false)) ∧
      (jsByteTruncate "abcdef" 3).1.length ≤ 3) :=
  ⟨by decide, c3_byte_truncation "abcdef" 3 (by decide)⟩

/-- C4 counterexample: the claim says the final encoded text is always
bounded by the 1000000-character structural ceiling, even after
truncation to 100 elements.  The captured value `bigNested` — one
nested array of 350000 ones, whose raw JSON text (700003 characters)
fits the default byte limit — refutes it: the outer array has a single
element, so slicing to 100 elements keeps everything and the final
re-serialization still has 2450010 characters. -/
theorem c4_ceiling_exceeded : 1000000 < (jsonResponseText bigNested).length := by
  show 1000000 < (jsonStringify (structuralStage bigNested).1).length
  rw [structuralStage_bigNested]
  show 1000000 < (jsonStringify bigNested).length
  rw [bigNested_len]
  norm_num

/-- C4 amended: the ceiling does hold for top-level arrays whose
elements each serialize (at depth 1) to at most 9000 characters — after
reduction to 100 elements the serialization fits — but not in general:
the structural stage bounds the element count, never the element size,
and non-array non-object values are never reduced at all. -/
theorem c4_bounded_for_small_elements (l : List Json)
    (hB : ∀ x ∈ l, (jsonStringifyAux x 1).length ≤ 9000) :
    (jsonResponseText (Json.arr l)).length ≤ 1000000 := by
  by_cases h : (jsonStringify (Json.arr l)).length > 1000000
  · have hs := structuralStage_arr_eq l h
    show (jsonStringify (structuralStage (Json.arr l)).1).length ≤ 1000000
    rw [hs]
    have hmem : ∀ x ∈ l.take 100, (jsonStringifyAux x 1).length ≤ 9000 :=
      fun x hx => hB x (List.take_subset 100 l hx)
    cases htake : l.take 100 with
    | nil =>
      show (jsonStringifyAux (Json.arr []) 0).length ≤ 1000000
      rw [show jsonStringifyAux (Json.arr []) 0 = "[]" from by simp [jsonStringifyAux]]
      decide
    | cons z zs =>
      have hlen : (z :: zs).length ≤ 100 := by
        rw [← htake]
        exact (List.length_take_le 100 l).trans (by norm_num)
      have hj := joinArrItems_len_le 1 9000 (z :: zs) (htake ▸ hmem)
      show (jsonStringifyAux (Json.arr (z :: zs)) 0).length ≤ 1000000
      rw [jsonStringifyAux]
      simp only [String.length_append, indentStr_len]
      have h1 : ("[\n" : String).length = 2 := rfl
      have h2 : ("\n" : String).length = 1 := rfl
      have h3 : ("]" : String).length = 1 := rfl
      rw [h1, h2, h3, show (0 : Nat) + 1 = 1 from rfl]
      have hmul : (z :: zs).length * (2 * 1 + 9000 + 2) ≤ 100 * (2 * 1 + 9000 + 2) :=
        Nat.mul_le_mul_right _ hlen
      omega
  · show (jsonStringify (structuralStage (Json.arr l)).1).length ≤ 1000000
    rw [structuralStage_small _ h]
    show (jsonStringify (Json.arr l)).length ≤ 1000000
    omega

/-- Witness for C4 amended at a concrete small array. -/
theorem c4_bounded_for_small_elements_witness :
    (∀ x ∈ [Json.num 1], (jsonStringifyAux x 1).length ≤ 9000) ∧
    (jsonResponseText (Json.arr [Json.num 1])).length ≤ 1000000 := by
  have hB : ∀ x ∈ [Json.num 1], (jsonStringifyAux x 1).length ≤ 9000 := by
    intro x hx
    simp only [List.mem_singleton] at hx
    subst hx
    rw [stringify_num_len]
    decide
  exact ⟨hB, c4_bounded_for_small_elements [Json.num 1] hB⟩

/-- C5: every successfully parsed value whose stable re-serialization
exceeds the structural ceiling is reduced as the claim states: an array
keeps exactly its first 100 elements, an object its first 100 entries
in original order, the structural-truncation flag is set, and the final
text is the re-serialization of the reduced value. -/
theorem c5_structural_truncation (v : Json) (h : 1000000 < (jsonStringify v).length) :
    (∀ l, v = Json.arr l →
      structuralStage v = (Json.arr (l.take 100), true) ∧
      jsonResponseText v = jsonStringify (Json.arr (l.take 100))) ∧
    (∀ ps, v = Json.obj ps →
      structuralStage v = (Json.obj (ps.take 100), true) ∧
      jsonResponseText v = jsonStringify (Json.obj (ps.take 100))) := by
  constructor
  · rintro l rfl
    have hs := structuralStage_arr_eq l h
    refine ⟨hs, ?_⟩
    show jsonStringify (structuralStage (Json.arr l)).1 = _
    rw [hs]
  · rintro ps rfl
    have hs := structuralStage_obj_eq ps h
    refine ⟨hs, ?_⟩
    show jsonStringify (structuralStage (Json.obj ps)).1 = _
    rw [hs]

/-- Witness for C5: a sequence of 500 integers whose formatted size
(1052502) exceeds the ceiling is cut to its first 100 elements with the
flag set. -/
theorem c5_structural_truncation_witness :
    1000000 < (jsonStringify v500).length ∧
    structuralStage v500 = (Json.arr (List.replicate 100 (Json.num ((10 ^ 2100 : Nat) : Int))), true) := by
  have h : 1000000 < (jsonStringify v500).length := by
    rw [v500_len]
    norm_num
  refine ⟨h, ?_⟩
  have hc := (c5_structural_truncation v500 h).1
    (List.replicate 500 (Json.num ((10 ^ 2100 : Nat) : Int))) rfl
  have htake : List.take 100 (List.replicate 500 (Json.num ((10 ^ 2100 : Nat) : Int)))
      = List.replicate 100 (Json.num ((10 ^ 2100 : Nat) : Int)) := by
    rw [List.take_replicate, show min 100 500 = 100 from rfl]
  rw [htake] at hc
  exact hc.1

/-- C6 counterexample: the claim says every invocation in which a
truncation flag is set carries metadata (original size, applied limit,
note, advisory).  In the v1.2.0 handler a byte-truncated response (10
characters cut to limit 5) returns exactly the truncated text "aaaaa"
— a result carrying neither the original size "10" nor any truncation
note. -/
theorem c6_v12_no_metadata :
    handleCurlRequestV12 argsC6 ⟨"aaaaaaaaaa", "", true⟩ = ToolResult.ok "aaaaa" ∧
    containsSub "truncated".data "aaaaa".data = false ∧
    containsSub "10".data "aaaaa".data = false := by
  refine ⟨by decide, by decide, by decide⟩

/-- C6 amended: in the v1.1.0 handler, whenever the byte stage
truncates, the constructed result carries the truncated flag, the
original size, the applied limit, the human-readable note, and the
advisory to tune max_response_size; the v1.2.0 handler attaches no such
metadata, and the v1.1.0 oversized-envelope branch carries only a
partial set. -/
theorem c6_v11_metadata_attached (cmd stdout stderr : String) (m : Nat)
    (h : m < stdout.length) :
    (v11ResultOf cmd stdout stderr m).truncated = some true ∧
    (v11ResultOf cmd stdout stderr m).original_size = some stdout.length ∧
    (v11ResultOf cmd stdout stderr m).truncated_size = some m ∧
    (v11ResultOf cmd stdout stderr m).truncation_note
      = some ("Response truncated from " ++ toString stdout.length
            ++ " bytes to " ++ toString m ++ " bytes") ∧
    (v11ResultOf cmd stdout stderr m).warning
      = some "Large response was truncated. Use max_response_size parameter to control truncation." := by
  have hv : v11ResultOf cmd stdout stderr m
      = buildV11Result cmd (String.mk (stdout.data.take m)) stdout.length m true stderr := by
    unfold v11ResultOf
    rw [jsByteTruncate, if_pos h]
  rw [hv]
  unfold buildV11Result
  rw [if_pos rfl]
  refine ⟨rfl, rfl, rfl, rfl, rfl⟩

/-- Witness for C6 amended at a concrete truncating capture. -/
theorem c6_v11_metadata_attached_witness :
    5 < ("aaaaaaaaaa" : String).length ∧
    ((v11ResultOf "curl" "aaaaaaaaaa" "" 5).truncated = some true ∧
      (v11ResultOf "curl" "aaaaaaaaaa" "" 5).original_size = some ("aaaaaaaaaa" : String).length ∧
      (v11ResultOf "curl" "aaaaaaaaaa" "" 5).truncated_size = some 5 ∧
      (v11ResultOf "curl" "aaaaaaaaaa" "" 5).truncation_note
        = some ("Response truncated from " ++ toString ("aaaaaaaaaa" : String).length
              ++ " bytes to " ++ toString 5 ++ " bytes") ∧
      (v11ResultOf "curl" "aaaaaaaaaa" "" 5).warning
        = some "Large response was truncated. Use max_response_size parameter to control truncation.") :=
  ⟨by decide, c6_v11_metadata_attached "curl" "aaaaaaaaaa" "" 5 (by decide)⟩

/-- C7 counterexample: the claim says a method outside the enumerated
set fails as InvalidMethod before command assembly.  With method
"TRACE" the handler instead assembles a command containing
`--request TRACE` and returns the child's output normally. -/
theorem c7_method_not_validated :
    "--request TRACE" ∈ buildCurlCmd argsC7 ∧
    handleCurlRequestV12 argsC7 ⟨"hi", "", true⟩ = ToolResult.ok "hi" := by
  constructor
  · decide
  · decide

/-- C7 amended: the handler performs no method validation at all — for
every invocation the assembled command embeds the method string
verbatim; the 7-verb restriction exists only declaratively in the
tool's input schema. -/
theorem c7_any_method_assembled (a : RequestArgs) :
    ("--request " ++ a.method) ∈ buildCurlCmd a := by
  unfold buildCurlCmd
  simp

/-- C8: the URL "not-a-url" is rejected by the URL parser, and the
handler returns the InvalidUrl error result for every possible child
process — the result does not depend on the child, so no subprocess is
ever consulted: validation precedes command assembly and execution. -/
theorem c8_invalid_url_no_spawn :
    parseURLModel "not-a-url" = none ∧
    ∀ child : ProcOutput, handleCurlRequestV12 argsC8 child
      = ToolResult.err (jsonErrorText "Invalid URL: not-a-url" none) := by
  constructor
  · decide
  · intro child
    rfl

/-- C9: when a data payload is supplied but the method is not one of
the three body-bearing verbs, no argument of the constructed command
starts with the characters `--data`: the body is silently omitted. -/
theorem c9_no_body_argument (a : RequestArgs) (d : String) (hd : a.data = some d)
    (hm : a.method ∉ bodyVerbs) :
    ∀ x ∈ buildCurlCmd a, x.data.take 6 ≠ "--data".data :=
  no_data_arg_of_nil a (dataClause_nil_of_method a d hd hm)

/-- Witness for C9 at a concrete GET invocation with a payload. -/
theorem c9_no_body_argument_witness :
    argsC9.data = some "payload" ∧ argsC9.method ∉ bodyVerbs ∧
    ∀ x ∈ buildCurlCmd argsC9, x.data.take 6 ≠ "--data".data :=
  ⟨rfl, by decide, c9_no_body_argument argsC9 "payload" rfl (by decide)⟩

/-- C10: with a body-bearing method and data equal to the empty string,
the truthiness guard drops the body: the command equals the one built
with no data at all, and no argument starts with `--data`. -/
theorem c10_empty_body_omitted (a : RequestArgs) (hd : a.data = some "")
    (_hm : a.method ∈ bodyVerbs) :
    buildCurlCmd a = buildCurlCmd { a with data := none } ∧
    ∀ x ∈ buildCurlCmd a, x.data.take 6 ≠ "--data".data := by
  refine ⟨?_, no_data_arg_of_nil a (dataClause_nil_of_empty a hd)⟩
  unfold buildCurlCmd
  rw [dataClause_nil_of_empty a hd]
  rfl

/-- Witness for C10 at a concrete POST invocation with an empty body. -/
theorem c10_empty_body_omitted_witness :
    argsC10.data = some "" ∧ argsC10.method ∈ bodyVerbs ∧
    (buildCurlCmd argsC10 = buildCurlCmd { argsC10 with data := none } ∧
      ∀ x ∈ buildCurlCmd argsC10, x.data.take 6 ≠ "--data".data) :=
  ⟨rfl, by decide, c10_empty_body_omitted argsC10 rfl (by decide)⟩
